import Mathlib

/-!
Shallow embedding of `src/srtp/srtp.c` (libSRTP session-level engine).

Conventions of the embedding:

* Byte buffers are `List Nat`; each entry is one octet (values are used
  mod 256 where the code masks).  A packet argument `pkt : List Nat` plays
  the role of the `(hdr, *pkt_octet_len)` pair of the C code, with
  `pkt.length = *pkt_octet_len`.
* Machine integers are `Nat`/`Int` with explicit `% 2^w` where the C code
  can overflow or truncate.  `x & 0x7FFFFFFF` is written `x % 0x80000000`
  (bitwise AND with an all-ones mask is reduction mod a power of two).
* The pluggable cipher/MAC primitives (crypto kernel), the replay-database
  operations (`rdbx.c`, `rdb.c`), and the key-usage limit (`key.c`) are not
  part of this translation unit.  They are treated as the black boxes the
  spec declares them to be: all theorems quantify over an `Ext` record of
  oracle functions standing for those primitives.  The replay-database
  *state* types are concrete (so that "unchanged" is expressible), with
  `init` constructors modelled from the spec.
* `htonl`/`ntohl`/`htons` and stores through the `v128_t` union are
  byte-order sensitive; one Boolean `le` (little-endian host) makes that
  explicit where the result can differ (it only can in
  `srtp_calc_aead_iv_srtcp` and the RTCP AEAD trailer-as-AAD step; every
  other network-order conversion in the file is byte-order independent
  because the converted value is immediately stored back to memory).
* Events (`srtp_handle_event`) are pure notifications to a caller-supplied
  handler; they do not alter session state and are not modelled.
* EKT is not configured (`policy->ekt == NULL`), matching the default
  build; `srtp_ekt_write_data` and `srtp_ekt_octets_after_base_tag` are
  no-ops for a null EKT context.
-/

namespace LibSrtp

/-- `srtp_err_status_t` (err.h), restricted to the codes this file uses. -/
inductive SrtpStatus where
  | ok
  | fail
  | bad_param
  | alloc_fail
  | init_fail
  | no_ctx
  | cipher_fail
  | key_expired
  | replay_fail
  | replay_old
  | auth_fail
  | cant_check
  | parse_err
deriving DecidableEq, Repr

/-- `direction` field of a stream: `dir_unknown`, `dir_srtp_sender`,
`dir_srtp_receiver`. -/
inductive Direction where
  | unknown
  | sender
  | receiver
deriving DecidableEq, Repr

/-- Cipher type identifiers / `algorithm` tags used by `srtp.c`.
`SRTP_AES_128_ICM` is the same identifier as `SRTP_AES_ICM`
(crypto_types.h aliases them); it is `aes_icm` here. -/
inductive CipherTypeId where
  | null_cipher
  | aes_icm
  | aes_192_icm
  | aes_256_icm
  | aes_128_gcm
  | aes_256_gcm
deriving DecidableEq, Repr

/-- Auth function type identifiers. -/
inductive AuthTypeId where
  | null_auth
  | hmac_sha1
deriving DecidableEq, Repr

/-- `srtp_ssrc_type_t`. -/
inductive SsrcType where
  | undefined
  | specific
  | any_inbound
  | any_outbound
deriving DecidableEq, Repr

/-- Result of `srtp_key_limit_update`. -/
inductive KeyEvent where
  | normal
  | soft_limit
  | hard_limit
deriving DecidableEq, Repr

/-! ## Byte helpers -/

/-- Read byte `i` of a buffer (out-of-range reads yield 0; the C code never
relies on out-of-range values on the paths the theorems below describe). -/
def getByte (p : List Nat) (i : Nat) : Nat := p.getD i 0

/-- Write/read exactly `n` bytes: truncate or zero-pad `l` to length `n`.
This models a primitive that fills exactly `n` octets of a buffer. -/
def fit (n : Nat) (l : List Nat) : List Nat := (l ++ List.replicate n 0).take n

/-- `i`-th byte of `n`, little-endian position (byte 0 is least
significant). -/
def byteOf (n i : Nat) : Nat := n / 2 ^ (8 * i) % 256

/-- Big-endian (network order) 4-byte representation of a 32-bit value. -/
def beBytes32 (n : Nat) : List Nat := [byteOf n 3, byteOf n 2, byteOf n 1, byteOf n 0]

/-- Little-endian 4-byte store of a 32-bit value. -/
def leBytes32 (n : Nat) : List Nat := [byteOf n 0, byteOf n 1, byteOf n 2, byteOf n 3]

/-- Big-endian 8-byte representation of a 64-bit value. -/
def beBytes64 (n : Nat) : List Nat :=
  [byteOf n 7, byteOf n 6, byteOf n 5, byteOf n 4, byteOf n 3, byteOf n 2, byteOf n 1, byteOf n 0]

/-- Byte swap of a 32-bit value. -/
def bswap32 (n : Nat) : Nat :=
  byteOf n 0 * 2 ^ 24 + byteOf n 1 * 2 ^ 16 + byteOf n 2 * 2 ^ 8 + byteOf n 3

/-- `htonl` as a value-to-value function: identity on big-endian hosts,
byte swap on little-endian hosts. -/
def htonl (le : Bool) (n : Nat) : Nat := if le then bswap32 n else n % 2 ^ 32

/-- Store a 32-bit value into four memory bytes, per host byte order. -/
def store32 (le : Bool) (n : Nat) : List Nat := if le then leBytes32 n else beBytes32 n

/-- Read 4 bytes at offset `i` as a network-order (big-endian) integer
(this is `ntohl(*(uint32_t *)(p + i))`, whose result is byte-order
independent). -/
def be32At (p : List Nat) (i : Nat) : Nat :=
  ((getByte p i * 256 + getByte p (i + 1)) * 256 + getByte p (i + 2)) * 256 + getByte p (i + 3)

/-- Bytewise XOR (`v128_xor`). -/
def xorBytes (a b : List Nat) : List Nat := List.zipWith Nat.xor a b

/-! ## Replay databases

`rdbx.c` / `rdb.c` are outside this translation unit.  The state records
below are modelled from the spec (§4.B); all their *operations* except
`init` are oracle fields of `Ext`. -/

/-- Modelled from the spec: `srtp_rdbx_t` (rdbx.c, not part of this
translation unit), the RTP extended-index replay database — a 48-bit
high-water index, the configured window size, and the set of seen indices
inside the window (spec §4.B). -/
structure Rdbx where
  index : Nat
  window_size : Nat
  seen : List Nat
deriving DecidableEq, Repr

/-- Modelled from the spec: `srtp_rdbx_init(&rdbx, ws)` (spec §4.B) —
start at index 0 with an empty window of the given size. -/
def Rdbx.init (ws : Nat) : Rdbx := ⟨0, ws, []⟩

/-- Modelled from the spec: `srtp_rdb_t` (rdb.c, not part of this
translation unit), the RTCP replay database — a 31-bit monotone index
plus the lookback window of seen indices (spec §4.B). -/
structure Rdb where
  value : Nat
  seen : List Nat
deriving DecidableEq, Repr

/-- Modelled from the spec: `srtp_rdb_init` (spec §4.B) — zeroed state. -/
def Rdb.init : Rdb := ⟨0, []⟩

/-! ## Policies -/

/-- `sec_serv_none` -/
def sec_serv_none : Nat := 0
/-- `sec_serv_conf` -/
def sec_serv_conf : Nat := 1
/-- `sec_serv_auth` -/
def sec_serv_auth : Nat := 2
/-- `sec_serv_conf_and_auth` -/
def sec_serv_conf_and_auth : Nat := 3

/-- `srtp_crypto_policy_t`. -/
structure CryptoPolicy where
  cipher_type : CipherTypeId
  cipher_key_len : Nat
  auth_type : AuthTypeId
  auth_key_len : Nat
  auth_tag_len : Nat
  sec_serv : Nat
deriving DecidableEq, Repr

/-- `srtp_ssrc_t`. -/
structure SsrcSpec where
  type : SsrcType
  value : Nat
deriving DecidableEq, Repr

/-- `srtp_policy_t` (EKT sub-policy omitted: not configured).
`keyPresent` stands for `policy->key != NULL`. -/
structure Policy where
  ssrc : SsrcSpec
  rtp : CryptoPolicy
  rtcp : CryptoPolicy
  keyPresent : Bool
  window_size : Nat
  allow_repeat_tx : Nat
deriving DecidableEq, Repr

/-! ## Streams and sessions -/

/-- `srtp_stream_ctx_t`.  The cipher/auth objects themselves are external;
the stream keeps the data `srtp.c` reads from them: the type id and
`algorithm` tag of each cipher, the tag and keystream-prefix lengths of
each auth function, and the key-usage counter value behind `limit`.
(The C `limit` of a clone aliases the template's; that sharing is not
observable by any theorem below and the counter is stored by value.)
`ssrc` holds the network-byte-order SSRC, represented by the big-endian
integer value of its four bytes, which is how packets are compared to
it. -/
structure Stream where
  ssrc : Nat
  rtp_cipher_id : CipherTypeId
  rtp_alg : CipherTypeId
  rtcp_cipher_id : CipherTypeId
  rtcp_alg : CipherTypeId
  rtp_tag_len : Nat
  rtcp_tag_len : Nat
  rtp_prefix_len : Nat
  rtcp_prefix_len : Nat
  rtp_services : Nat
  rtcp_services : Nat
  direction : Direction
  allow_repeat_tx : Bool
  limit : Nat
  rtp_rdbx : Rdbx
  rtcp_rdb : Rdb
  salt : List Nat
  c_salt : List Nat
deriving DecidableEq, Repr

/-- `srtp_ctx_t`: list of concrete streams, optional template stream,
opaque user data (represented as `Option Nat`). -/
structure Session where
  streams : List Stream
  templ : Option Stream
  user_data : Option Nat
deriving DecidableEq, Repr

/-- `srtp_get_stream`: linear scan of `stream_list` comparing the stored
network-order SSRC with the packet's. -/
def srtp_get_stream (s : Session) (ssrc : Nat) : Option Stream :=
  s.streams.find? (fun st => st.ssrc == ssrc)

/-- Write an updated stream back over the first list entry with the same
SSRC (the C code updates the found stream in place through its pointer). -/
def replaceStream : List Stream → Stream → List Stream
  | [], _ => []
  | s :: rest, st => if s.ssrc == st.ssrc then st :: rest else s :: replaceStream rest st

/-- Write back an in-place mutation of the resolved stream:
the template if the packet is being processed provisionally through it,
otherwise the matching entry of `stream_list`. -/
def putStream (sess : Session) (fromTemplate : Bool) (st : Stream) : Session :=
  if fromTemplate then { sess with templ := some st }
  else { sess with streams := replaceStream sess.streams st }

/-- `srtp_stream_clone(stream_template, ssrc, &str)`: share cipher/auth
configuration and the key limit, fresh replay databases (RTP window size
copied from the template), given SSRC, copied direction/services/salts. -/
def srtp_stream_clone (t : Stream) (ssrc : Nat) : Stream :=
  { t with
    ssrc := ssrc
    rtp_rdbx := Rdbx.init t.rtp_rdbx.window_size
    rtcp_rdb := Rdb.init }

/-- The observable state claim C1 speaks about: for every stream its SSRC,
RTP replay database, RTCP replay database and direction — and, through the
list/option structure, the stream list and template themselves.  (The
key-usage counter is deliberately not part of this tuple.) -/
def streamObs (s : Stream) : Nat × Rdbx × Rdb × Direction :=
  (s.ssrc, s.rtp_rdbx, s.rtcp_rdb, s.direction)

/-- Observables of a whole session. -/
def sessObs (s : Session) : List (Nat × Rdbx × Rdb × Direction) × Option (Nat × Rdbx × Rdb × Direction) :=
  (s.streams.map streamObs, s.templ.map streamObs)

/-! ## External primitives (oracles)

Everything `srtp.c` calls in the crypto kernel / replay modules, with the
result shapes the call sites consume.  The cipher state machine
(`set_iv`, `set_aad`, `encrypt`, …) is collapsed to functions from the
byte strings the C code passes to the statuses/byte strings it reads
back; theorems quantify over all such behaviours. -/
structure Ext where
  /-- host is little-endian -/
  le : Bool
  /-- `srtp_rdbx_estimate_index(&rdbx, &est, sn)` returning `(delta, est)` -/
  rdbx_estimate_index : Rdbx → Nat → Int × Nat
  /-- `srtp_rdbx_check(&rdbx, delta)` -/
  rdbx_check : Rdbx → Int → SrtpStatus
  /-- `srtp_rdbx_add_index(&rdbx, delta)` -/
  rdbx_add_index : Rdbx → Int → Rdbx
  /-- `srtp_rdb_check(&rdb, idx)` -/
  rdb_check : Rdb → Nat → SrtpStatus
  /-- `srtp_rdb_add_index(&rdb, idx)` -/
  rdb_add_index : Rdb → Nat → Rdb
  /-- `srtp_rdb_increment(&rdb)` (status, updated state) -/
  rdb_increment : Rdb → SrtpStatus × Rdb
  /-- `srtp_rdb_get_value(&rdb)` -/
  rdb_get_value : Rdb → Nat
  /-- `srtp_key_limit_update(limit)` (event, updated counter) -/
  key_limit_update : Nat → KeyEvent × Nat
  /-- `srtp_cipher_set_iv(rtp_cipher, iv, dir)` -/
  rtp_set_iv : List Nat → SrtpStatus
  /-- `srtp_cipher_set_aad(rtp_cipher, buf, len)` -/
  rtp_set_aad : List Nat → SrtpStatus
  /-- `srtp_cipher_encrypt(rtp_cipher, buf, &len)` -/
  rtp_encrypt : List Nat → SrtpStatus × List Nat
  /-- `srtp_cipher_decrypt(rtp_cipher, buf, &len)` -/
  rtp_decrypt : List Nat → SrtpStatus × List Nat
  /-- `srtp_cipher_output(rtp_cipher, buf, &n)` -/
  rtp_output : Nat → SrtpStatus × List Nat
  /-- `srtp_cipher_get_tag(rtp_cipher, buf, &len)` -/
  rtp_get_tag : SrtpStatus × List Nat
  /-- `auth_start` + `auth_update` + `auth_compute` on `rtp_auth`: MAC over
  the concatenation of all bytes fed in, returning the final call's status
  and the tag bytes written -/
  rtp_auth_compute : List Nat → SrtpStatus × List Nat
  /-- same, `rtcp_cipher` -/
  rtcp_set_iv : List Nat → SrtpStatus
  rtcp_set_aad : List Nat → SrtpStatus
  rtcp_encrypt : List Nat → SrtpStatus × List Nat
  rtcp_decrypt : List Nat → SrtpStatus × List Nat
  rtcp_output : Nat → SrtpStatus × List Nat
  rtcp_get_tag : SrtpStatus × List Nat
  rtcp_auth_compute : List Nat → SrtpStatus × List Nat

/-- Result triple of a protect/unprotect call: returned status, session
state after the call, packet buffer of length `*pkt_octet_len`. -/
structure PktResult where
  status : SrtpStatus
  sess : Session
  pkt : List Nat
deriving Repr

/-! ## Key schedule (`base_key_length`, salt lengths) -/

/-- `base_key_length(cipher, key_length)` (srtp.c:488).  `key_length` is a
C `int`, so the AES-ICM case may go negative; hence `Int`. -/
def base_key_length (cipher : CipherTypeId) (key_length : Int) : Int :=
  match cipher with
  | .aes_icm => key_length - 14
  | .aes_192_icm => key_length - 14
  | .aes_256_icm => key_length - 14
  | .aes_128_gcm => 16
  | .aes_256_gcm => 32
  | _ => key_length

/-- Salt length as computed by `srtp_stream_init_keys`:
`rtp_salt_len = rtp_keylen - rtp_base_key_len` (srtp.c:525, 621). -/
def srtp_salt_length (cipher : CipherTypeId) (key_length : Int) : Int :=
  key_length - base_key_length cipher key_length

/-- Claim C5's statement of the base key length, written from the spec's
words: combined − 14 for the AES-ICM family, 16 for AES-128-GCM, 32 for
AES-256-GCM, otherwise the combined length. -/
def base_key_length_spec (cipher : CipherTypeId) (combined : Int) : Int :=
  if cipher = .aes_icm ∨ cipher = .aes_192_icm ∨ cipher = .aes_256_icm then combined - 14
  else if cipher = .aes_128_gcm then 16
  else if cipher = .aes_256_gcm then 32
  else combined

/-! ## Crypto-policy helpers and DTLS-SRTP profiles -/

/-- `srtp_crypto_policy_set_rtp_default` (srtp.c:2020). -/
def srtp_crypto_policy_set_rtp_default : CryptoPolicy :=
  ⟨.aes_icm, 30, .hmac_sha1, 20, 10, sec_serv_conf_and_auth⟩

/-- `srtp_crypto_policy_set_rtcp_default` (srtp.c:2032). -/
def srtp_crypto_policy_set_rtcp_default : CryptoPolicy :=
  ⟨.aes_icm, 30, .hmac_sha1, 20, 10, sec_serv_conf_and_auth⟩

/-- `srtp_crypto_policy_set_aes_cm_128_hmac_sha1_80` — a srtp.h alias for
the RTP default policy. -/
def srtp_crypto_policy_set_aes_cm_128_hmac_sha1_80 : CryptoPolicy :=
  srtp_crypto_policy_set_rtp_default

/-- `srtp_crypto_policy_set_aes_cm_128_hmac_sha1_32` (srtp.c:2044). -/
def srtp_crypto_policy_set_aes_cm_128_hmac_sha1_32 : CryptoPolicy :=
  ⟨.aes_icm, 30, .hmac_sha1, 20, 4, sec_serv_conf_and_auth⟩

/-- `srtp_crypto_policy_set_null_cipher_hmac_sha1_80` (srtp.c:2082). -/
def srtp_crypto_policy_set_null_cipher_hmac_sha1_80 : CryptoPolicy :=
  ⟨.null_cipher, 0, .hmac_sha1, 20, 10, sec_serv_auth⟩

/-- `srtp_crypto_policy_set_aes_cm_256_hmac_sha1_80` (srtp.c:2115). -/
def srtp_crypto_policy_set_aes_cm_256_hmac_sha1_80 : CryptoPolicy :=
  ⟨.aes_icm, 46, .hmac_sha1, 20, 10, sec_serv_conf_and_auth⟩

/-- `srtp_crypto_policy_set_aes_cm_256_hmac_sha1_32` (srtp.c:2131). -/
def srtp_crypto_policy_set_aes_cm_256_hmac_sha1_32 : CryptoPolicy :=
  ⟨.aes_icm, 46, .hmac_sha1, 20, 4, sec_serv_conf_and_auth⟩

/-- `srtp_profile_t` values handled by the profile helpers. -/
inductive Profile where
  | aes128_cm_sha1_80
  | aes128_cm_sha1_32
  | null_sha1_80
  | aes256_cm_sha1_80
  | aes256_cm_sha1_32
  | null_sha1_32
deriving DecidableEq, Repr

/-- `srtp_crypto_policy_set_from_profile_for_rtp` (srtp.c:3110).
`none` is `srtp_err_status_bad_param`. -/
def srtp_crypto_policy_set_from_profile_for_rtp : Profile → Option CryptoPolicy
  | .aes128_cm_sha1_80 => some srtp_crypto_policy_set_aes_cm_128_hmac_sha1_80
  | .aes128_cm_sha1_32 => some srtp_crypto_policy_set_aes_cm_128_hmac_sha1_32
  | .null_sha1_80 => some srtp_crypto_policy_set_null_cipher_hmac_sha1_80
  | .aes256_cm_sha1_80 => some srtp_crypto_policy_set_aes_cm_256_hmac_sha1_80
  | .aes256_cm_sha1_32 => some srtp_crypto_policy_set_aes_cm_256_hmac_sha1_32
  | .null_sha1_32 => none

/-- `srtp_crypto_policy_set_from_profile_for_rtcp` (srtp.c:3140): the
32-bit-tag profiles are mapped to the corresponding 80-bit policies. -/
def srtp_crypto_policy_set_from_profile_for_rtcp : Profile → Option CryptoPolicy
  | .aes128_cm_sha1_80 => some srtp_crypto_policy_set_aes_cm_128_hmac_sha1_80
  | .aes128_cm_sha1_32 => some srtp_crypto_policy_set_aes_cm_128_hmac_sha1_80
  | .null_sha1_80 => some srtp_crypto_policy_set_null_cipher_hmac_sha1_80
  | .aes256_cm_sha1_80 => some srtp_crypto_policy_set_aes_cm_256_hmac_sha1_80
  | .aes256_cm_sha1_32 => some srtp_crypto_policy_set_aes_cm_256_hmac_sha1_80
  | .null_sha1_32 => none

/-! ## Stream initialization, `srtp_add_stream`, `srtp_create` -/

/-- The stream context produced when `srtp_stream_init` succeeds: the
fields of `srtp_stream_ctx_t` as the function sets them.
`rtp_prefix_len`/`rtcp_prefix_len` are 0 for HMAC-SHA1 and the null auth —
the only auth functions of this build. -/
def srtp_stream_init_record (p : Policy) (rdbx : Rdbx) : Stream :=
  { ssrc := p.ssrc.value
    rtp_cipher_id := p.rtp.cipher_type
    rtp_alg := p.rtp.cipher_type
    rtcp_cipher_id := p.rtcp.cipher_type
    rtcp_alg := p.rtcp.cipher_type
    rtp_tag_len := p.rtp.auth_tag_len
    rtcp_tag_len := p.rtcp.auth_tag_len
    rtp_prefix_len := 0
    rtcp_prefix_len := 0
    rtp_services := p.rtp.sec_serv
    rtcp_services := p.rtcp.sec_serv
    direction := .unknown
    allow_repeat_tx := p.allow_repeat_tx == 1
    limit := 0xffffffffffff
    rtp_rdbx := rdbx
    rtcp_rdb := Rdb.init
    salt := List.replicate 12 0
    c_salt := List.replicate 12 0 }

/-- `srtp_stream_init(srtp, p)` (srtp.c:696).  The KDF / cipher / auth key
initialization (`srtp_stream_init_keys`) drives external primitives and is
taken to succeed; the salts it derives are external values and are left
zeroed here (no theorem relates initialization to salt contents). -/
def srtp_stream_init (p : Policy) : SrtpStatus × Option Stream :=
  if p.window_size ≠ 0 ∧ (p.window_size < 64 ∨ 0x8000 ≤ p.window_size) then
    (.bad_param, none)
  else
    let rdbx := if p.window_size ≠ 0 then Rdbx.init p.window_size else Rdbx.init 128
    if p.allow_repeat_tx ≠ 0 ∧ p.allow_repeat_tx ≠ 1 then (.bad_param, none)
    else (.ok, some (srtp_stream_init_record p rdbx))

/-- `srtp_add_stream(session, policy)` (srtp.c:1868).  Allocation is taken
to succeed (`srtp_stream_alloc` only fails on out-of-memory / unknown
primitive ids). -/
def srtp_add_stream (sess : Session) (p : Policy) : SrtpStatus × Session :=
  if p.keyPresent = false then (.bad_param, sess)
  else
    match srtp_stream_init p with
    | (s, none) => (s, sess)
    | (_, some tmp) =>
      match p.ssrc.type with
      | .any_outbound =>
          if sess.templ.isSome then (.bad_param, sess)
          else (.ok, { sess with templ := some { tmp with direction := .sender } })
      | .any_inbound =>
          if sess.templ.isSome then (.bad_param, sess)
          else (.ok, { sess with templ := some { tmp with direction := .receiver } })
      | .specific => (.ok, { sess with streams := tmp :: sess.streams })
      | .undefined => (.bad_param, sess)

/-- `srtp_create(session, policy)` (srtp.c:1928): fresh empty context, then
`srtp_add_stream` for each policy in the list; on failure the whole
session is torn down (`none`). -/
def srtp_create (policies : List Policy) : SrtpStatus × Option Session :=
  let rec go (sess : Session) : List Policy → SrtpStatus × Option Session
    | [] => (.ok, some sess)
    | p :: rest =>
      match srtp_add_stream sess p with
      | (.ok, sess') => go sess' rest
      | (s, _) => (s, none)
  go ⟨[], none, none⟩ policies

/-! ## Packet field access -/

/-- RTP `hdr->cc` (low nibble of byte 0 on the wire). -/
def rtp_cc (p : List Nat) : Nat := getByte p 0 % 16

/-- RTP `hdr->x` (bit 4 of byte 0 on the wire). -/
def rtp_x (p : List Nat) : Nat := getByte p 0 / 16 % 2

/-- RTP `ntohs(hdr->seq)` (bytes 2–3). -/
def rtp_seq (p : List Nat) : Nat := getByte p 2 * 256 + getByte p 3

/-- RTP `hdr->ssrc` (bytes 8–11, kept in network order; represented by the
big-endian integer value of the four bytes). -/
def rtp_ssrc (p : List Nat) : Nat := be32At p 8

/-- RTP extension header `ntohs(xtn_hdr->length)`: 16-bit field at offset
`12 + 4*cc + 2`. -/
def rtp_xtn_len (p : List Nat) : Nat :=
  getByte p (12 + 4 * rtp_cc p + 2) * 256 + getByte p (12 + 4 * rtp_cc p + 3)

/-- Byte offset of the encrypted region:
`(uint32*)hdr + uint32s_in_rtp_header + hdr->cc`, plus
`ntohs(xtn_hdr->length) + 1` words when the X bit is set. -/
def rtpEncOffset (p : List Nat) : Nat :=
  12 + 4 * rtp_cc p + (if rtp_x p = 1 then 4 * (rtp_xtn_len p + 1) else 0)

/-- `srtp_validate_rtp_header` (srtp.c:76). -/
def srtp_validate_rtp_header (p : List Nat) : SrtpStatus :=
  let base := 12 + 4 * rtp_cc p + (if rtp_x p = 1 then 4 else 0)
  if p.length < base then .bad_param
  else if rtp_x p = 1 then
    if p.length < base + 4 * rtp_xtn_len p then .bad_param else .ok
  else .ok

/-- RTCP `hdr->ssrc` (bytes 4–7, network order). -/
def rtcp_ssrc (p : List Nat) : Nat := be32At p 4

/-! ## IV formation -/

/-- `srtp_calc_aead_iv` (srtp.c:860): RTP AEAD IV,
`[00 00 | SSRC | ROC | SEQ]` XOR the 12-byte salt, as a full `v128_t`
(the cipher consumes the first 12 bytes).  All stores here are
network-order converted before being written back to memory, so the
result is byte-order independent. -/
def srtp_calc_aead_iv (salt : List Nat) (ssrcBytes : List Nat) (est : Nat) : List Nat :=
  let roc := beBytes32 (est / 2 ^ 16 % 2 ^ 32)
  let sq := [est / 256 % 256, est % 256]
  let inBytes := [0, 0] ++ fit 4 ssrcBytes ++ roc ++ sq ++ [0, 0, 0, 0]
  xorBytes inBytes (fit 12 salt ++ [0, 0, 0, 0])

/-- `srtp_calc_aead_iv_srtcp` (srtp.c:2271), byte-exact including the
byte-order-sensitive store `in.v32[2] = 0x7FFFFFFF & htonl(seq_num)`:
the AND with the all-ones-but-top-bit mask is reduction mod `2^31` of the
*host-order* value, and the result is then stored through the `v128_t`
union in host byte order. -/
def srtp_calc_aead_iv_srtcp (le : Bool) (c_salt : List Nat) (ssrcBytes : List Nat)
    (seq_num : Nat) : List Nat :=
  let idxBytes := store32 le (htonl le seq_num % 0x80000000)
  let inBytes := [0, 0] ++ fit 4 ssrcBytes ++ [0, 0] ++ idxBytes
  xorBytes (inBytes ++ [0, 0, 0, 0]) (fit 12 c_salt ++ [0, 0, 0, 0])

/-- The RTCP AEAD IV as the spec words it:
`[00 00 | SSRC(4) | 00 00 | (idx & 0x7FFF_FFFF)(4, network order)]`
XOR the 12-byte RTCP salt. -/
def aead_iv_srtcp_spec (c_salt : List Nat) (ssrcBytes : List Nat) (idx : Nat) : List Nat :=
  xorBytes ([0, 0] ++ fit 4 ssrcBytes ++ [0, 0] ++ beBytes32 (idx % 0x80000000))
    (fit 12 c_salt)

/-- RTP AES-ICM IV (srtp.c:1358):
`[0 | ssrc(net) | BE64(est << 16)]`. -/
def rtp_icm_iv (ssrcBytes : List Nat) (est : Nat) : List Nat :=
  [0, 0, 0, 0] ++ fit 4 ssrcBytes ++ beBytes64 (est * 2 ^ 16 % 2 ^ 64)

/-- RTP IV for other cipher types (srtp.c:1368): index in the low 64
bits. -/
def rtp_raw_iv (est : Nat) : List Nat :=
  List.replicate 8 0 ++ beBytes64 (est % 2 ^ 64)

/-- RTCP AES-ICM IV (srtp.c:2748):
`[0 | ssrc(net) | BE(seq >> 16) | BE(seq << 16)]`. -/
def rtcp_icm_iv (ssrcBytes : List Nat) (seq : Nat) : List Nat :=
  [0, 0, 0, 0] ++ fit 4 ssrcBytes ++ beBytes32 (seq / 2 ^ 16) ++ beBytes32 (seq * 2 ^ 16 % 2 ^ 32)

/-- RTCP IV for other cipher types (srtp.c:2757): `[0 | 0 | 0 | BE(seq)]`. -/
def rtcp_raw_iv (seq : Nat) : List Nat :=
  List.replicate 12 0 ++ beBytes32 (seq % 2 ^ 32)

/-- The AEAD-dispatch test of srtp.c (lines 1270, 1534, 2691, 2897): the
*RTP* cipher's `algorithm` is AES-128-GCM or AES-256-GCM. -/
def srtp_uses_aead (st : Stream) : Bool :=
  st.rtp_alg == .aes_128_gcm || st.rtp_alg == .aes_256_gcm

/-! ## Receive-side commit blocks

The tail of every unprotect path (srtp.c:1141–1181, 1698–1737, 2581–2618,
3048–3084): pin the receiver direction, clone the template into a concrete
stream if the packet was processed provisionally, and commit the packet
index to the replay database.  When the direction is already fixed to the
opposite role the code only raises an `ssrc_collision` event (events do
not change state and are not modelled). -/

/-- Commit block of the RTP unprotect paths. -/
def commitRecvRtp (ext : Ext) (sess : Session) (st : Stream) (fromTemplate : Bool)
    (pktSsrc : Nat) (delta : Int) : Session :=
  let st1 := if st.direction = .unknown then { st with direction := .receiver } else st
  let sess1 := putStream sess fromTemplate st1
  let stc := if fromTemplate then srtp_stream_clone st1 pktSsrc else st1
  let sess2 := if fromTemplate then { sess1 with streams := stc :: sess1.streams } else sess1
  let st2 := { stc with rtp_rdbx := ext.rdbx_add_index stc.rtp_rdbx delta }
  putStream sess2 false st2

/-- Commit block of the RTCP unprotect paths. -/
def commitRecvRtcp (ext : Ext) (sess : Session) (st : Stream) (fromTemplate : Bool)
    (pktSsrc seq : Nat) : Session :=
  let st1 := if st.direction = .unknown then { st with direction := .receiver } else st
  let sess1 := putStream sess fromTemplate st1
  let stc := if fromTemplate then srtp_stream_clone st1 pktSsrc else st1
  let sess2 := if fromTemplate then { sess1 with streams := stc :: sess1.streams } else sess1
  let st2 := { stc with rtcp_rdb := ext.rdb_add_index stc.rtcp_rdb seq }
  putStream sess2 false st2

/-! ## RTCP protect -/

/-- Stream resolution of `srtp_protect_rtcp` (srtp.c:2650–2671): look up
the SSRC; if absent, clone the template and prepend the clone (no
direction is assigned here — the clone inherits the template's). -/
def srtp_protect_rtcp_resolve (sess : Session) (ssrc : Nat) : Option (Stream × Session) :=
  match srtp_get_stream sess ssrc with
  | some st => some (st, sess)
  | none =>
    match sess.templ with
    | some t =>
      let ns := srtp_stream_clone t ssrc
      some (ns, { sess with streams := ns :: sess.streams })
    | none => none

/-- `srtp_protect_rtcp_aead` (srtp.c:2303).  On the wire the tag precedes
the trailer: `[hdr | payload | tag | trailer]`. -/
def srtp_protect_rtcp_aead (ext : Ext) (sess : Session) (st : Stream)
    (pkt : List Nat) : PktResult :=
  let tagLen := st.rtcp_tag_len
  let encLen := pkt.length - 8
  let conf := Nat.land st.rtcp_services sec_serv_conf ≠ 0
  -- srtp_rdb_increment mutates the stream's RTCP replay DB in place
  let incr := ext.rdb_increment st.rtcp_rdb
  let st1 := { st with rtcp_rdb := incr.2 }
  let sess1 := putStream sess false st1
  if incr.1 ≠ .ok then ⟨incr.1, sess1, pkt⟩ else
  let seq := ext.rdb_get_value incr.2
  -- SRTCP trailer word: E bit ORed with the index (network order on the wire)
  let w := Nat.lor (if conf then 0x80000000 else 0) (seq % 2 ^ 32)
  let iv := srtp_calc_aead_iv_srtcp ext.le st1.c_salt (fit 4 (pkt.drop 4)) seq
  if ext.rtcp_set_iv iv ≠ .ok then ⟨.cipher_fail, sess1, pkt⟩ else
  -- AAD: header only when encrypting, otherwise the whole packet
  let aad1 := if conf then pkt.take 8 else pkt
  if ext.rtcp_set_aad aad1 ≠ .ok then ⟨.cipher_fail, sess1, pkt⟩ else
  -- tseq = htonl(*trailer): on a little-endian host this passes the
  -- trailer word to the AAD in host (little-endian) byte order
  let aad2 := if ext.le then leBytes32 w else beBytes32 w
  if ext.rtcp_set_aad aad2 ≠ .ok then ⟨.cipher_fail, sess1, pkt⟩ else
  if conf then
    let enc := ext.rtcp_encrypt (pkt.drop 8)
    if enc.1 ≠ .ok then ⟨.cipher_fail, sess1, pkt⟩ else
    let tg := ext.rtcp_get_tag
    if tg.1 ≠ .ok then ⟨.cipher_fail, sess1, pkt⟩ else
    ⟨.ok, sess1, pkt.take 8 ++ fit encLen enc.2 ++ fit tagLen tg.2 ++ beBytes32 w⟩
  else
    -- run the cipher on no data just to produce the tag
    let enc := ext.rtcp_encrypt []
    if enc.1 ≠ .ok then ⟨.cipher_fail, sess1, pkt⟩ else
    let tg := ext.rtcp_get_tag
    if tg.1 ≠ .ok then ⟨.cipher_fail, sess1, pkt⟩ else
    ⟨.ok, sess1, pkt ++ fit tagLen tg.2 ++ beBytes32 w⟩

/-- The CTR+HMAC tail of `srtp_protect_rtcp` (srtp.c:2696–2816). -/
def srtp_protect_rtcp_ctr (ext : Ext) (sess : Session) (st : Stream)
    (pkt : List Nat) : PktResult :=
  let tagLen := st.rtcp_tag_len
  let encLen := pkt.length - 8
  let conf := Nat.land st.rtcp_services sec_serv_conf ≠ 0
  -- srtp_rdb_increment mutates the stream's RTCP replay DB in place
  let incr := ext.rdb_increment st.rtcp_rdb
  let st1 := { st with rtcp_rdb := incr.2 }
  let sess1 := putStream sess false st1
  if incr.1 ≠ .ok then ⟨incr.1, sess1, pkt⟩ else
  let seq := ext.rdb_get_value incr.2
  let w := Nat.lor (if conf then 0x80000000 else 0) (seq % 2 ^ 32)
  let iv := if st1.rtcp_cipher_id = .aes_icm then rtcp_icm_iv (fit 4 (pkt.drop 4)) seq
            else rtcp_raw_iv seq
  if ext.rtcp_set_iv iv ≠ .ok then ⟨.cipher_fail, sess1, pkt⟩ else
  -- keystream prefix into the tag area (the auth pointer is always set:
  -- srtcp always authenticates)
  let pfx := ext.rtcp_output st1.rtcp_prefix_len
  if pfx.1 ≠ .ok then ⟨.cipher_fail, sess1, pkt⟩ else
  let cont := fun (payloadOut : List Nat) =>
    -- MAC over header, (possibly encrypted) payload and the 4-byte
    -- trailer; the tag is written right after the trailer
    let body := pkt.take 8 ++ payloadOut ++ beBytes32 w
    let mac := ext.rtcp_auth_compute body
    if mac.1 ≠ .ok then PktResult.mk .auth_fail sess1 pkt
    else ⟨.ok, sess1, body ++ fit tagLen mac.2⟩
  if conf then
    let enc := ext.rtcp_encrypt (pkt.drop 8)
    if enc.1 ≠ .ok then ⟨.cipher_fail, sess1, pkt⟩ else cont (fit encLen enc.2)
  else cont (pkt.drop 8)

/-- `srtp_protect_rtcp` (srtp.c:2623). -/
def srtp_protect_rtcp (ext : Ext) (sess : Session) (pkt : List Nat) : PktResult :=
  if pkt.length < 8 then ⟨.bad_param, sess, pkt⟩ else
  match srtp_protect_rtcp_resolve sess (rtcp_ssrc pkt) with
  | none => ⟨.no_ctx, sess, pkt⟩
  | some (st, sessA) =>
    -- sender-direction check: pin when unknown, else only an event
    let st1 := if st.direction = .unknown then { st with direction := .sender } else st
    let sessB := putStream sessA false st1
    if srtp_uses_aead st1 then srtp_protect_rtcp_aead ext sessB st1 pkt
    else srtp_protect_rtcp_ctr ext sessB st1 pkt

/-! ## RTCP unprotect -/

/-- `srtp_unprotect_rtcp_aead` (srtp.c:2451). -/
def srtp_unprotect_rtcp_aead (ext : Ext) (sess : Session) (pkt : List Nat)
    (st : Stream) (fromTemplate : Bool) : PktResult :=
  let len := pkt.length
  let tagLen := st.rtcp_tag_len
  let trailerOff := len - 4
  let encLen := len - 12
  let tagOff := len - tagLen - 4
  -- first trailer byte & SRTCP_E_BYTE_BIT; no comparison against the
  -- configured service here
  let ebit : Bool := Nat.land (getByte pkt trailerOff) 0x80 == 0x80
  let seq := be32At pkt trailerOff % 0x80000000
  let chk := ext.rdb_check st.rtcp_rdb seq
  if chk ≠ .ok then ⟨chk, sess, pkt⟩ else
  let iv := srtp_calc_aead_iv_srtcp ext.le st.c_salt (fit 4 (pkt.drop 4)) seq
  if ext.rtcp_set_iv iv ≠ .ok then ⟨.cipher_fail, sess, pkt⟩ else
  let aad1 := if ebit then pkt.take 8 else pkt.take (len - tagLen - 4)
  if ext.rtcp_set_aad aad1 ≠ .ok then ⟨.cipher_fail, sess, pkt⟩ else
  let w := be32At pkt trailerOff
  let aad2 := if ext.le then leBytes32 w else beBytes32 w
  if ext.rtcp_set_aad aad2 ≠ .ok then ⟨.cipher_fail, sess, pkt⟩ else
  if ebit then
    -- ciphertext runs from the header to the trailer, tag included
    let dec := ext.rtcp_decrypt ((pkt.drop 8).take encLen)
    if dec.1 ≠ .ok then ⟨dec.1, sess, pkt⟩ else
    ⟨.ok, commitRecvRtcp ext sess st fromTemplate (rtcp_ssrc pkt) seq,
      pkt.take 8 ++ fit (encLen - tagLen) dec.2⟩
  else
    -- still run the cipher over the tag to check it
    let dec := ext.rtcp_decrypt ((pkt.drop tagOff).take tagLen)
    if dec.1 ≠ .ok then ⟨dec.1, sess, pkt⟩ else
    ⟨.ok, commitRecvRtcp ext sess st fromTemplate (rtcp_ssrc pkt) seq,
      pkt.take (len - (tagLen + 4))⟩

/-- The CTR+HMAC tail of `srtp_unprotect_rtcp` (srtp.c:2902–3087). -/
def srtp_unprotect_rtcp_ctr (ext : Ext) (sess : Session) (pkt : List Nat)
    (st : Stream) (fromTemplate : Bool) : PktResult :=
  let len := pkt.length
  let tagLen := st.rtcp_tag_len
  let sec_conf : Bool :=
    st.rtcp_services == sec_serv_conf || st.rtcp_services == sec_serv_conf_and_auth
  let encLen := len - (8 + tagLen + 4)
  let trailerOff := len - (tagLen + 4)
  let ebit : Bool := Nat.land (getByte pkt trailerOff) 0x80 == 0x80
  -- the E bit must match the configured confidentiality service
  if ebit ≠ sec_conf then ⟨.cant_check, sess, pkt⟩ else
  let authLen := len - tagLen
  let seq := be32At pkt trailerOff % 0x80000000
  let chk := ext.rdb_check st.rtcp_rdb seq
  if chk ≠ .ok then ⟨chk, sess, pkt⟩ else
  let iv := if st.rtcp_cipher_id = .aes_icm then rtcp_icm_iv (fit 4 (pkt.drop 4)) seq
            else rtcp_raw_iv seq
  if ext.rtcp_set_iv iv ≠ .ok then ⟨.cipher_fail, sess, pkt⟩ else
  -- MAC over header, payload and trailer; constant-time compare with the
  -- tag stored in the packet
  let mac := ext.rtcp_auth_compute (pkt.take authLen)
  if mac.1 ≠ .ok then ⟨.auth_fail, sess, pkt⟩ else
  if fit tagLen mac.2 ≠ pkt.drop authLen then ⟨.auth_fail, sess, pkt⟩ else
  -- vestigial keystream-prefix generation after verification
  if st.rtcp_prefix_len ≠ 0 ∧ (ext.rtcp_output st.rtcp_prefix_len).1 ≠ .ok then
    ⟨.cipher_fail, sess, pkt⟩ else
  let cont := fun (buf : List Nat) =>
    let sess' := commitRecvRtcp ext sess st fromTemplate (rtcp_ssrc pkt) seq
    PktResult.mk .ok sess' (buf.take (len - (tagLen + 4)))
  if sec_conf then
    let dec := ext.rtcp_decrypt ((pkt.drop 8).take encLen)
    if dec.1 ≠ .ok then ⟨.cipher_fail, sess, pkt⟩ else
    cont (pkt.take 8 ++ fit encLen dec.2 ++ pkt.drop (8 + encLen))
  else cont pkt

/-- Length check and dispatch of `srtp_unprotect_rtcp` once the stream is
resolved (srtp.c:2883–2900). -/
def srtp_unprotect_rtcp_body (ext : Ext) (sess : Session) (pkt : List Nat)
    (st : Stream) (fromTemplate : Bool) : PktResult :=
  if pkt.length < 8 + st.rtcp_tag_len + 4 then ⟨.bad_param, sess, pkt⟩ else
  if srtp_uses_aead st then srtp_unprotect_rtcp_aead ext sess pkt st fromTemplate
  else srtp_unprotect_rtcp_ctr ext sess pkt st fromTemplate

/-- `srtp_unprotect_rtcp` (srtp.c:2820). -/
def srtp_unprotect_rtcp (ext : Ext) (sess : Session) (pkt : List Nat) : PktResult :=
  if pkt.length < 8 + 4 then ⟨.bad_param, sess, pkt⟩ else
  match srtp_get_stream sess (rtcp_ssrc pkt) with
  | some st => srtp_unprotect_rtcp_body ext sess pkt st false
  | none =>
    match sess.templ with
    | some t => srtp_unprotect_rtcp_body ext sess pkt t true
    | none => ⟨.no_ctx, sess, pkt⟩

/-! ## RTP unprotect -/

/-- Header validation, stream resolution and up-front replay check of
`srtp_unprotect` (srtp.c:1471–1522).  On success: the stream, whether it
is the template used provisionally, and `(delta, est)`.  For a known
stream the index is estimated from the replay DB and checked; for the
provisional template `est = delta = seq` with no replay consultation. -/
def srtp_unprotect_resolve (ext : Ext) (sess : Session) (pkt : List Nat) :
    Except SrtpStatus (Stream × Bool × Int × Nat) :=
  let v := srtp_validate_rtp_header pkt
  if v ≠ .ok then .error v else
  if pkt.length < 12 then .error .bad_param else
  match srtp_get_stream sess (rtp_ssrc pkt) with
  | some st =>
    let er := ext.rdbx_estimate_index st.rtp_rdbx (rtp_seq pkt)
    let chk := ext.rdbx_check st.rtp_rdbx er.1
    if chk ≠ .ok then .error chk else .ok (st, false, er.1, er.2)
  | none =>
    match sess.templ with
    | some t => .ok (t, true, Int.ofNat (rtp_seq pkt), rtp_seq pkt)
    | none => .error .no_ctx

/-- `srtp_unprotect_aead` (srtp.c:1038). -/
def srtp_unprotect_aead (ext : Ext) (sess : Session) (pkt : List Nat)
    (st : Stream) (fromTemplate : Bool) (delta : Int) (est : Nat) : PktResult :=
  let tagLen := st.rtp_tag_len
  let iv := srtp_calc_aead_iv st.salt (fit 4 (pkt.drop 8)) est
  if ext.rtp_set_iv iv ≠ .ok then ⟨.cipher_fail, sess, pkt⟩ else
  let encOff := rtpEncOffset pkt
  if ¬ encOff < pkt.length then ⟨.parse_err, sess, pkt⟩ else
  let encLen := pkt.length - encOff
  if encLen < tagLen then ⟨.cipher_fail, sess, pkt⟩ else
  -- key-usage update; mutates the counter in place before decryption
  let ku := ext.key_limit_update st.limit
  let st1 := { st with limit := ku.2 }
  let sess1 := putStream sess fromTemplate st1
  if ku.1 = .hard_limit then ⟨.key_expired, sess1, pkt⟩ else
  if ext.rtp_set_aad (pkt.take encOff) ≠ .ok then ⟨.cipher_fail, sess1, pkt⟩ else
  -- GCM decrypt validates the tag internally; its status is returned as is
  let dec := ext.rtp_decrypt (pkt.drop encOff)
  if dec.1 ≠ .ok then ⟨dec.1, sess1, pkt⟩ else
  ⟨.ok, commitRecvRtp ext sess1 st1 fromTemplate (rtp_ssrc pkt) delta,
    pkt.take encOff ++ fit (encLen - tagLen) dec.2⟩

/-- The CTR+HMAC tail of `srtp_unprotect` (srtp.c:1539–1743). -/
def srtp_unprotect_ctr (ext : Ext) (sess : Session) (pkt : List Nat)
    (st : Stream) (fromTemplate : Bool) (delta : Int) (est : Nat) : PktResult :=
  let len := pkt.length
  let tagLen := st.rtp_tag_len
  let iv := if st.rtp_cipher_id = .aes_icm ∨ st.rtp_cipher_id = .aes_256_icm then
              rtp_icm_iv (fit 4 (pkt.drop 8)) est
            else rtp_raw_iv est
  if ext.rtp_set_iv iv ≠ .ok then ⟨.cipher_fail, sess, pkt⟩ else
  -- est <<= 16, converted to network order: the four bytes fed to the MAC
  -- are the big-endian rollover counter
  let roc := beBytes32 (est / 2 ^ 16 % 2 ^ 32)
  let conf := Nat.land st.rtp_services sec_serv_conf ≠ 0
  let doAuth := Nat.land st.rtp_services sec_serv_auth ≠ 0
  let encOff := rtpEncOffset pkt
  if conf ∧ ¬ encOff < len then ⟨.parse_err, sess, pkt⟩ else
  let encLen := len - tagLen - encOff
  -- authentication block (only when the auth service is configured):
  -- keystream prefix for universal-hash authenticators, MAC over
  -- `pkt_len - tag_len` packet bytes plus the 4 ROC bytes, constant-time
  -- compare against the tag stored at the end of the packet
  if doAuth ∧ st.rtp_prefix_len ≠ 0 ∧ (ext.rtp_output st.rtp_prefix_len).1 ≠ .ok then
    ⟨.cipher_fail, sess, pkt⟩ else
  if doAuth ∧ (ext.rtp_auth_compute (pkt.take (len - tagLen) ++ roc)).1 ≠ .ok then
    ⟨.auth_fail, sess, pkt⟩ else
  if doAuth ∧ fit tagLen (ext.rtp_auth_compute (pkt.take (len - tagLen) ++ roc)).2 ≠
      pkt.drop (len - tagLen) then
    ⟨.auth_fail, sess, pkt⟩ else
  -- key-usage update happens only after the authentication check
  let ku := ext.key_limit_update st.limit
  let st1 := { st with limit := ku.2 }
  let sess1 := putStream sess fromTemplate st1
  if ku.1 = .hard_limit then ⟨.key_expired, sess1, pkt⟩ else
  if conf ∧ (ext.rtp_decrypt ((pkt.drop encOff).take encLen)).1 ≠ .ok then
    ⟨.cipher_fail, sess1, pkt⟩ else
  let buf := if conf then
      pkt.take encOff ++ fit encLen (ext.rtp_decrypt ((pkt.drop encOff).take encLen)).2 ++
        pkt.drop (encOff + encLen)
    else pkt
  ⟨.ok, commitRecvRtp ext sess1 st1 fromTemplate (rtp_ssrc pkt) delta,
    buf.take (len - tagLen)⟩

/-- `srtp_unprotect` (srtp.c:1452). -/
def srtp_unprotect (ext : Ext) (sess : Session) (pkt : List Nat) : PktResult :=
  match srtp_unprotect_resolve ext sess pkt with
  | .error s => ⟨s, sess, pkt⟩
  | .ok (st, ft, delta, est) =>
    if srtp_uses_aead st then srtp_unprotect_aead ext sess pkt st ft delta est
    else srtp_unprotect_ctr ext sess pkt st ft delta est

/-! ## RTP protect -/

/-- Stream resolution of `srtp_protect` (srtp.c:1226–1250): look up the
SSRC; if absent, clone the template, prepend the clone and set its
direction to sender. -/
def srtp_protect_resolve (sess : Session) (ssrc : Nat) : Option (Stream × Session) :=
  match srtp_get_stream sess ssrc with
  | some st => some (st, sess)
  | none =>
    match sess.templ with
    | some t =>
      let ns := { srtp_stream_clone t ssrc with direction := Direction.sender }
      some (ns, { sess with streams := ns :: sess.streams })
    | none => none

/-- `srtp_protect_aead` (srtp.c:906). -/
def srtp_protect_aead (ext : Ext) (sess : Session) (st : Stream)
    (pkt : List Nat) : PktResult :=
  -- key-usage update first on the send path
  let ku := ext.key_limit_update st.limit
  let st1 := { st with limit := ku.2 }
  let sess1 := putStream sess false st1
  if ku.1 = .hard_limit then ⟨.key_expired, sess1, pkt⟩ else
  let tagLen := st1.rtp_tag_len
  let encOff := rtpEncOffset pkt
  if ¬ encOff < pkt.length then ⟨.parse_err, sess1, pkt⟩ else
  let encLen := pkt.length - encOff
  -- estimate index, replay check, commit before encryption
  let er := ext.rdbx_estimate_index st1.rtp_rdbx (rtp_seq pkt)
  let chk := ext.rdbx_check st1.rtp_rdbx er.1
  if chk ≠ .ok ∧ (chk ≠ .replay_fail ∨ st1.allow_repeat_tx = false) then
    ⟨chk, sess1, pkt⟩ else
  let st2 := if chk = .ok then { st1 with rtp_rdbx := ext.rdbx_add_index st1.rtp_rdbx er.1 }
             else st1
  let sess2 := putStream sess1 false st2
  let iv := srtp_calc_aead_iv st2.salt (fit 4 (pkt.drop 8)) er.2
  if ext.rtp_set_iv iv ≠ .ok then ⟨.cipher_fail, sess2, pkt⟩ else
  if ext.rtp_set_aad (pkt.take encOff) ≠ .ok then ⟨.cipher_fail, sess2, pkt⟩ else
  let enc := ext.rtp_encrypt (pkt.drop encOff)
  if enc.1 ≠ .ok then ⟨.cipher_fail, sess2, pkt⟩ else
  let tg := ext.rtp_get_tag
  if tg.1 ≠ .ok then ⟨.cipher_fail, sess2, pkt⟩ else
  ⟨.ok, sess2, pkt.take encOff ++ fit encLen enc.2 ++ fit tagLen tg.2⟩

/-- The CTR+HMAC tail of `srtp_protect` (srtp.c:1275–1448). -/
def srtp_protect_ctr (ext : Ext) (sess : Session) (st : Stream)
    (pkt : List Nat) : PktResult :=
  let ku := ext.key_limit_update st.limit
  let st1 := { st with limit := ku.2 }
  let sess1 := putStream sess false st1
  if ku.1 = .hard_limit then ⟨.key_expired, sess1, pkt⟩ else
  let len := pkt.length
  let tagLen := st1.rtp_tag_len
  let conf := Nat.land st1.rtp_services sec_serv_conf ≠ 0
  let doAuth := Nat.land st1.rtp_services sec_serv_auth ≠ 0
  let encOff := rtpEncOffset pkt
  -- on the send path the parse check only guards the extension case
  if conf ∧ rtp_x pkt = 1 ∧ ¬ encOff < len then ⟨.parse_err, sess1, pkt⟩ else
  let encLen := len - encOff
  let er := ext.rdbx_estimate_index st1.rtp_rdbx (rtp_seq pkt)
  let chk := ext.rdbx_check st1.rtp_rdbx er.1
  if chk ≠ .ok ∧ (chk ≠ .replay_fail ∨ st1.allow_repeat_tx = false) then
    ⟨chk, sess1, pkt⟩ else
  let st2 := if chk = .ok then { st1 with rtp_rdbx := ext.rdbx_add_index st1.rtp_rdbx er.1 }
             else st1
  let sess2 := putStream sess1 false st2
  let est := er.2
  let iv := if st2.rtp_cipher_id = .aes_icm ∨ st2.rtp_cipher_id = .aes_256_icm then
              rtp_icm_iv (fit 4 (pkt.drop 8)) est
            else rtp_raw_iv est
  if ext.rtp_set_iv iv ≠ .ok then ⟨.cipher_fail, sess2, pkt⟩ else
  let roc := beBytes32 (est / 2 ^ 16 % 2 ^ 32)
  if doAuth ∧ st2.rtp_prefix_len ≠ 0 ∧ (ext.rtp_output st2.rtp_prefix_len).1 ≠ .ok then
    ⟨.cipher_fail, sess2, pkt⟩ else
  let cont := fun (buf : List Nat) =>
    if doAuth then
      let mac := ext.rtp_auth_compute (buf ++ roc)
      if mac.1 ≠ .ok then PktResult.mk .auth_fail sess2 buf
      else ⟨.ok, sess2, buf ++ fit tagLen mac.2⟩
    else PktResult.mk .ok sess2 buf
  if conf then
    let enc := ext.rtp_encrypt ((pkt.drop encOff).take encLen)
    if enc.1 ≠ .ok then ⟨.cipher_fail, sess2, pkt⟩ else
    cont (pkt.take encOff ++ fit encLen enc.2)
  else cont pkt

/-- `srtp_protect` (srtp.c:1192). -/
def srtp_protect (ext : Ext) (sess : Session) (pkt : List Nat) : PktResult :=
  let v := srtp_validate_rtp_header pkt
  if v ≠ .ok then ⟨v, sess, pkt⟩ else
  if pkt.length < 12 then ⟨.bad_param, sess, pkt⟩ else
  match srtp_protect_resolve sess (rtp_ssrc pkt) with
  | none => ⟨.no_ctx, sess, pkt⟩
  | some (st, sessA) =>
    let st1 := if st.direction = .unknown then { st with direction := .sender } else st
    let sessB := putStream sessA false st1
    if srtp_uses_aead st1 then srtp_protect_aead ext sessB st1 pkt
    else srtp_protect_ctr ext sessB st1 pkt

/-! ## Helper lemmas -/

lemma fit_length (n : Nat) (l : List Nat) : (fit n l).length = n := by
  simp [fit]

/-! ## Claim theorems -/

/-- C5: For every cipher type and combined key+salt length used in the key
schedule, the base key length equals combined−14 for the AES-ICM family
(128/192/256), 16 for AES-128-GCM, 32 for AES-256-GCM, and the combined
length for any other cipher; the salt length is the combined length minus
this base length. -/
theorem base_key_length_matches_spec :
    ∀ (c : CipherTypeId) (len : Int),
      base_key_length c len = base_key_length_spec c len ∧
      srtp_salt_length c len = len - base_key_length_spec c len := by
  intro c len
  cases c <;> simp [base_key_length, base_key_length_spec, srtp_salt_length]

/-- C8: The RTP and RTCP profile-to-policy helpers succeed for
`aes128_cm_sha1_80`, `aes128_cm_sha1_32`, `null_sha1_80`,
`aes256_cm_sha1_80` and `aes256_cm_sha1_32`, return `bad_param`
(here `none`) for `null_sha1_32`, and for RTCP the 32-bit-tag profiles
yield the corresponding 80-bit-tag policy (`auth_tag_len = 10`). -/
theorem profile_policy_mapping :
    (srtp_crypto_policy_set_from_profile_for_rtp .aes128_cm_sha1_80 =
        some srtp_crypto_policy_set_aes_cm_128_hmac_sha1_80) ∧
    (srtp_crypto_policy_set_from_profile_for_rtp .aes128_cm_sha1_32 =
        some srtp_crypto_policy_set_aes_cm_128_hmac_sha1_32) ∧
    (srtp_crypto_policy_set_from_profile_for_rtp .null_sha1_80 =
        some srtp_crypto_policy_set_null_cipher_hmac_sha1_80) ∧
    (srtp_crypto_policy_set_from_profile_for_rtp .aes256_cm_sha1_80 =
        some srtp_crypto_policy_set_aes_cm_256_hmac_sha1_80) ∧
    (srtp_crypto_policy_set_from_profile_for_rtp .aes256_cm_sha1_32 =
        some srtp_crypto_policy_set_aes_cm_256_hmac_sha1_32) ∧
    (srtp_crypto_policy_set_from_profile_for_rtp .null_sha1_32 = none) ∧
    (srtp_crypto_policy_set_from_profile_for_rtcp .aes128_cm_sha1_80 =
        some srtp_crypto_policy_set_aes_cm_128_hmac_sha1_80) ∧
    (srtp_crypto_policy_set_from_profile_for_rtcp .aes128_cm_sha1_32 =
        some srtp_crypto_policy_set_aes_cm_128_hmac_sha1_80) ∧
    (srtp_crypto_policy_set_from_profile_for_rtcp .null_sha1_80 =
        some srtp_crypto_policy_set_null_cipher_hmac_sha1_80) ∧
    (srtp_crypto_policy_set_from_profile_for_rtcp .aes256_cm_sha1_80 =
        some srtp_crypto_policy_set_aes_cm_256_hmac_sha1_80) ∧
    (srtp_crypto_policy_set_from_profile_for_rtcp .aes256_cm_sha1_32 =
        some srtp_crypto_policy_set_aes_cm_256_hmac_sha1_80) ∧
    (srtp_crypto_policy_set_from_profile_for_rtcp .null_sha1_32 = none) ∧
    ((srtp_crypto_policy_set_from_profile_for_rtcp .aes128_cm_sha1_32).map
        CryptoPolicy.auth_tag_len = some 10) ∧
    ((srtp_crypto_policy_set_from_profile_for_rtcp .aes256_cm_sha1_32).map
        CryptoPolicy.auth_tag_len = some 10) := by
  decide

/-- C4: `window_size = 0` is normalized to an RTP replay window of 128;
a nonzero `window_size` outside `[64, 0x8000)` is rejected with
`bad_param`; a nonzero `window_size` inside that interval is accepted and
used as the window size.  (The `allow_repeat_tx ∈ {0,1}` hypothesis keeps
the later, independent sanity check of `srtp_stream_init` out of the
way.) -/
theorem window_size_validation :
    ∀ p : Policy, p.allow_repeat_tx = 0 ∨ p.allow_repeat_tx = 1 →
      ((p.window_size = 0 →
          ∃ st, srtp_stream_init p = (.ok, some st) ∧ st.rtp_rdbx.window_size = 128)
       ∧ (p.window_size ≠ 0 → p.window_size < 64 ∨ 0x8000 ≤ p.window_size →
          srtp_stream_init p = (.bad_param, none))
       ∧ (64 ≤ p.window_size → p.window_size < 0x8000 →
          ∃ st, srtp_stream_init p = (.ok, some st) ∧
            st.rtp_rdbx.window_size = p.window_size)) := by
  intro p hart
  have hartF : ¬ (p.allow_repeat_tx ≠ 0 ∧ p.allow_repeat_tx ≠ 1) := by omega
  refine ⟨fun h0 => ?_, fun hnz hout => ?_, fun h64 hlt => ?_⟩
  · have h1 : ¬ (p.window_size ≠ 0 ∧ (p.window_size < 64 ∨ 0x8000 ≤ p.window_size)) := by
      omega
    have h2 : ¬ p.window_size ≠ 0 := by omega
    refine ⟨srtp_stream_init_record p (Rdbx.init 128), ?_, rfl⟩
    simp only [srtp_stream_init]
    rw [if_neg h1, if_neg h2, if_neg hartF]
  · simp only [srtp_stream_init]
    rw [if_pos ⟨hnz, hout⟩]
  · have h1 : ¬ (p.window_size ≠ 0 ∧ (p.window_size < 64 ∨ 0x8000 ≤ p.window_size)) := by
      omega
    have h2 : p.window_size ≠ 0 := by omega
    refine ⟨srtp_stream_init_record p (Rdbx.init p.window_size), ?_, rfl⟩
    simp only [srtp_stream_init]
    rw [if_neg h1, if_pos h2, if_neg hartF]

/-- A simple concrete policy used by witnesses: specific SSRC 1, default
RTP/RTCP crypto policies, given replay-window size. -/
def witnessPolicy (ws : Nat) : Policy :=
  { ssrc := ⟨.specific, 1⟩
    rtp := srtp_crypto_policy_set_rtp_default
    rtcp := srtp_crypto_policy_set_rtcp_default
    keyPresent := true
    window_size := ws
    allow_repeat_tx := 0 }

/-- Witness for C4 at the boundary values named by the claim:
window sizes 63 and 0x8000 are rejected, 0 becomes 128, 64 and 0x7FFF are
accepted as given. -/
theorem window_size_validation_witness :
    (∃ st, srtp_stream_init (witnessPolicy 0) = (.ok, some st) ∧
      st.rtp_rdbx.window_size = 128)
    ∧ srtp_stream_init (witnessPolicy 63) = (.bad_param, none)
    ∧ srtp_stream_init (witnessPolicy 0x8000) = (.bad_param, none)
    ∧ (∃ st, srtp_stream_init (witnessPolicy 64) = (.ok, some st) ∧
      st.rtp_rdbx.window_size = 64)
    ∧ (∃ st, srtp_stream_init (witnessPolicy 0x7FFF) = (.ok, some st) ∧
      st.rtp_rdbx.window_size = 0x7FFF) :=
  ⟨(window_size_validation (witnessPolicy 0) (Or.inl rfl)).1 rfl,
   (window_size_validation (witnessPolicy 63) (Or.inl rfl)).2.1 (by decide) (by decide),
   (window_size_validation (witnessPolicy 0x8000) (Or.inl rfl)).2.1 (by decide) (by decide),
   (window_size_validation (witnessPolicy 64) (Or.inl rfl)).2.2 (by decide) (by decide),
   (window_size_validation (witnessPolicy 0x7FFF) (Or.inl rfl)).2.2 (by decide) (by decide)⟩

/-- C7: `srtp_add_stream` with a successfully initialized stream: a
`specific` SSRC prepends the new stream to `stream_list`; a wildcard SSRC
installs it as the template (direction forced by the wildcard kind) only
when no template exists, else `bad_param`; `ssrc_undefined` is
`bad_param`. -/
theorem add_stream_by_ssrc_type :
    ∀ (sess : Session) (p : Policy) (st : Stream),
      srtp_stream_init p = (.ok, some st) → p.keyPresent = true →
      ((p.ssrc.type = .specific →
          srtp_add_stream sess p = (.ok, { sess with streams := st :: sess.streams }))
       ∧ (p.ssrc.type = .any_outbound →
          (sess.templ = none →
             srtp_add_stream sess p =
               (.ok, { sess with templ := some { st with direction := .sender } }))
          ∧ ∀ t, sess.templ = some t → srtp_add_stream sess p = (.bad_param, sess))
       ∧ (p.ssrc.type = .any_inbound →
          (sess.templ = none →
             srtp_add_stream sess p =
               (.ok, { sess with templ := some { st with direction := .receiver } }))
          ∧ ∀ t, sess.templ = some t → srtp_add_stream sess p = (.bad_param, sess))
       ∧ (p.ssrc.type = .undefined → srtp_add_stream sess p = (.bad_param, sess))) := by
  intro sess p st hinit hkey
  refine ⟨fun hty => ?_, fun hty => ⟨fun hne => ?_, fun t ht => ?_⟩,
          fun hty => ⟨fun hne => ?_, fun t ht => ?_⟩, fun hty => ?_⟩ <;>
    simp_all [srtp_add_stream]

/-- Wildcard variant of the witness policy. -/
def witnessPolicyWild (ty : SsrcType) : Policy :=
  { witnessPolicy 0 with ssrc := ⟨ty, 0⟩ }

/-- Witness for C7: on an empty session, adding a specific-SSRC stream
prepends it; adding a wildcard stream when a template already exists
fails; `ssrc_undefined` fails. -/
theorem add_stream_by_ssrc_type_witness :
    (∃ st, srtp_add_stream ⟨[], none, none⟩ (witnessPolicy 0) = (.ok, ⟨[st], none, none⟩))
    ∧ (∀ t : Stream, srtp_add_stream ⟨[], some t, none⟩ (witnessPolicyWild .any_inbound) =
        (.bad_param, ⟨[], some t, none⟩))
    ∧ srtp_add_stream ⟨[], none, none⟩ (witnessPolicyWild .undefined) =
        (.bad_param, ⟨[], none, none⟩) := by
  refine ⟨⟨srtp_stream_init_record (witnessPolicy 0) (Rdbx.init 128),
            (add_stream_by_ssrc_type ⟨[], none, none⟩ (witnessPolicy 0)
              (srtp_stream_init_record (witnessPolicy 0) (Rdbx.init 128)) rfl rfl).1 rfl⟩,
          fun t => ((add_stream_by_ssrc_type ⟨[], some t, none⟩ (witnessPolicyWild .any_inbound)
              (srtp_stream_init_record (witnessPolicyWild .any_inbound) (Rdbx.init 128))
              rfl rfl).2.2.1 rfl).2 t rfl,
          (add_stream_by_ssrc_type ⟨[], none, none⟩ (witnessPolicyWild .undefined)
              (srtp_stream_init_record (witnessPolicyWild .undefined) (Rdbx.init 128))
              rfl rfl).2.2.2 rfl⟩

lemma xorBytes_append_take (a b : List Nat) (ha : a.length = 12) (hb : b.length = 12) :
    (xorBytes (a ++ [0, 0, 0, 0]) (b ++ [0, 0, 0, 0])).take 12 = xorBytes a b := by
  unfold xorBytes
  rw [List.zipWith_append _ _ _ _ _ (by rw [ha, hb])]
  have hz : (List.zipWith Nat.xor a b).length = 12 := by
    rw [List.length_zipWith, ha, hb]; rfl
  rw [← hz, List.take_left]

/-- C2: `srtp_calc_aead_iv_srtcp` computes the documented IV
`[00 00 | SSRC | 00 00 | (idx & 0x7FFFFFFF)] XOR salt` on a big-endian
host, for every salt, SSRC and index.  On a little-endian host the
`0x7FFFFFFF` mask is applied to the already byte-swapped index, so it
clears bit 7 of the low-order index byte instead of bit 31: at index 128
the pre-salt byte 11 of the IV becomes 0x00 instead of 0x80 and the
computed IV differs from the documented one.  (The function's own comment
block documents the `[00|00|SSRC|00|00|0+SRTCP Idx]` layout and states
"bit 32 is suppose to be zero".) -/
theorem aead_iv_srtcp_mask_endianness :
    (∀ (c_salt ssrcBytes : List Nat) (idx : Nat),
        (srtp_calc_aead_iv_srtcp false c_salt ssrcBytes idx).take 12 =
          aead_iv_srtcp_spec c_salt ssrcBytes idx)
    ∧ (srtp_calc_aead_iv_srtcp true (List.replicate 12 0) [0, 0, 0, 0] 128).take 12 ≠
        aead_iv_srtcp_spec (List.replicate 12 0) [0, 0, 0, 0] 128 := by
  constructor
  · intro c s idx
    have hm : idx % 2 ^ 32 % 0x80000000 = idx % 0x80000000 :=
      Nat.mod_mod_of_dvd idx (by norm_num)
    have ha : ([0, 0] ++ fit 4 s ++ [0, 0] ++ beBytes32 (idx % 0x80000000)).length = 12 := by
      simp [fit_length, beBytes32]
    have hb : (fit 12 c).length = 12 := fit_length _ _
    simp only [srtp_calc_aead_iv_srtcp, aead_iv_srtcp_spec, htonl, store32,
      Bool.false_eq_true, if_false, hm]
    rw [show ([0, 0] ++ fit 4 s ++ [0, 0] ++ beBytes32 (idx % 0x80000000)) ++ [0, 0, 0, 0] =
          ([0, 0] ++ fit 4 s ++ [0, 0] ++ beBytes32 (idx % 0x80000000)) ++ [0, 0, 0, 0] from rfl]
    exact xorBytes_append_take _ _ ha hb
  · decide

/-! ## A concrete external-primitive instantiation (for witnesses) -/

/-- An everything-succeeds instantiation of the external primitives, on a
little-endian host.  Only used to instantiate theorems at concrete
inputs. -/
def ext0 : Ext :=
  { le := true
    rdbx_estimate_index := fun r sn => (Int.ofNat sn - Int.ofNat r.index, sn)
    rdbx_check := fun _ _ => .ok
    rdbx_add_index := fun r d => { r with index := (Int.ofNat r.index + d).toNat }
    rdb_check := fun _ _ => .ok
    rdb_add_index := fun r i => { r with seen := i :: r.seen }
    rdb_increment := fun r => (.ok, { r with value := r.value + 1 })
    rdb_get_value := fun r => r.value
    key_limit_update := fun n => (.normal, n - 1)
    rtp_set_iv := fun _ => .ok
    rtp_set_aad := fun _ => .ok
    rtp_encrypt := fun l => (.ok, l)
    rtp_decrypt := fun l => (.ok, l)
    rtp_output := fun n => (.ok, List.replicate n 0)
    rtp_get_tag := (.ok, List.replicate 16 0)
    rtp_auth_compute := fun _ => (.ok, List.replicate 20 0)
    rtcp_set_iv := fun _ => .ok
    rtcp_set_aad := fun _ => .ok
    rtcp_encrypt := fun l => (.ok, l)
    rtcp_decrypt := fun l => (.ok, l)
    rtcp_output := fun n => (.ok, List.replicate n 0)
    rtcp_get_tag := (.ok, List.replicate 16 0)
    rtcp_auth_compute := fun _ => (.ok, List.replicate 20 0) }

/-! ## Reduction lemmas shared by several proofs -/

lemma validate_ok_len (pkt : List Nat) (h : srtp_validate_rtp_header pkt = .ok) :
    ¬ pkt.length < 12 := by
  intro hlt
  unfold srtp_validate_rtp_header at h
  have hc : pkt.length < 12 + 4 * rtp_cc pkt + (if rtp_x pkt = 1 then 4 else 0) := by
    have h4 : 0 ≤ (if rtp_x pkt = 1 then 4 else 0) := Nat.zero_le _
    omega
  rw [if_pos hc] at h
  exact absurd h (by decide)

lemma validate_ok_or_bad (pkt : List Nat) :
    srtp_validate_rtp_header pkt = .ok ∨ srtp_validate_rtp_header pkt = .bad_param := by
  simp only [srtp_validate_rtp_header]
  repeat' split
  all_goals first
  | exact Or.inl rfl
  | exact Or.inr rfl

/-- Once the stream is resolved, `srtp_unprotect_rtcp` is its body on that
stream. -/
lemma unprotect_rtcp_eq_body (ext : Ext) (sess : Session) (pkt : List Nat)
    (st : Stream) (ft : Bool)
    (hres : if ft then srtp_get_stream sess (rtcp_ssrc pkt) = none ∧ sess.templ = some st
            else srtp_get_stream sess (rtcp_ssrc pkt) = some st)
    (hlen : ¬ pkt.length < 12) :
    srtp_unprotect_rtcp ext sess pkt = srtp_unprotect_rtcp_body ext sess pkt st ft := by
  cases ft with
  | false =>
    simp only [if_neg Bool.false_ne_true] at hres
    simp only [srtp_unprotect_rtcp]
    rw [if_neg (by omega), hres]
  | true =>
    simp only [if_pos rfl] at hres
    simp only [srtp_unprotect_rtcp]
    rw [if_neg (by omega), hres.1, hres.2]

/-! ## C9, C10, C3 -/

/-- Replace every RTCP-cipher-related field of a stream (used to state
that none of them takes part in the AEAD dispatch). -/
def setRtcpFields (st : Stream) (cid alg : CipherTypeId) (tl pl sv : Nat) (rdb : Rdb) :
    Stream :=
  { st with
    rtcp_cipher_id := cid
    rtcp_alg := alg
    rtcp_tag_len := tl
    rtcp_prefix_len := pl
    rtcp_services := sv
    rtcp_rdb := rdb }

/-- C9: For RTCP protect and unprotect the AEAD pipeline is chosen iff the
stream's **RTP** cipher `algorithm` is AES-128-GCM or AES-256-GCM; no
RTCP-cipher field takes part in the dispatch, which happens right after
stream resolution (and the sender-direction pin on the protect side). -/
theorem rtcp_dispatch_on_rtp_cipher_algorithm :
    (∀ st : Stream,
        srtp_uses_aead st = true ↔ st.rtp_alg = .aes_128_gcm ∨ st.rtp_alg = .aes_256_gcm)
    ∧ (∀ (st : Stream) (cid alg : CipherTypeId) (tl pl sv : Nat) (rdb : Rdb),
        srtp_uses_aead (setRtcpFields st cid alg tl pl sv rdb) = srtp_uses_aead st)
    ∧ (∀ (ext : Ext) (sess sessA : Session) (pkt : List Nat) (st : Stream),
        srtp_protect_rtcp_resolve sess (rtcp_ssrc pkt) = some (st, sessA) →
        ¬ pkt.length < 8 →
        srtp_protect_rtcp ext sess pkt =
          (let st1 := if st.direction = .unknown then { st with direction := .sender } else st
           if srtp_uses_aead st then srtp_protect_rtcp_aead ext (putStream sessA false st1) st1 pkt
           else srtp_protect_rtcp_ctr ext (putStream sessA false st1) st1 pkt))
    ∧ (∀ (ext : Ext) (sess : Session) (pkt : List Nat) (st : Stream) (ft : Bool),
        (if ft then srtp_get_stream sess (rtcp_ssrc pkt) = none ∧ sess.templ = some st
         else srtp_get_stream sess (rtcp_ssrc pkt) = some st) →
        ¬ pkt.length < 12 →
        srtp_unprotect_rtcp ext sess pkt = srtp_unprotect_rtcp_body ext sess pkt st ft)
    ∧ (∀ (ext : Ext) (sess : Session) (pkt : List Nat) (st : Stream) (ft : Bool),
        ¬ pkt.length < 8 + st.rtcp_tag_len + 4 →
        srtp_unprotect_rtcp_body ext sess pkt st ft =
          if srtp_uses_aead st then srtp_unprotect_rtcp_aead ext sess pkt st ft
          else srtp_unprotect_rtcp_ctr ext sess pkt st ft) := by
  refine ⟨?_, ?_, ?_, ?_, ?_⟩
  · intro st
    cases h : st.rtp_alg <;> simp [srtp_uses_aead, h]
  · intro st cid alg tl pl sv rdb
    simp [srtp_uses_aead, setRtcpFields]
  · intro ext sess sessA pkt st hres hlen
    have hpin : srtp_uses_aead
        (if st.direction = .unknown then { st with direction := .sender } else st) =
        srtp_uses_aead st := by
      by_cases hd : st.direction = .unknown <;> simp [hd, srtp_uses_aead]
    simp only [srtp_protect_rtcp]
    rw [if_neg hlen, hres]
    simp only [hpin]
  · exact fun ext sess pkt st ft hres hlen => unprotect_rtcp_eq_body ext sess pkt st ft hres hlen
  · intro ext sess pkt st ft hlen
    simp only [srtp_unprotect_rtcp_body]
    rw [if_neg hlen]

/-- A stream whose RTP cipher is AES-128-GCM but whose RTCP cipher is
AES-ICM — the mixed-family configuration claim C9 talks about. -/
def stGcmRtp : Stream :=
  { ssrc := 5
    rtp_cipher_id := .aes_128_gcm
    rtp_alg := .aes_128_gcm
    rtcp_cipher_id := .aes_icm
    rtcp_alg := .aes_icm
    rtp_tag_len := 16
    rtcp_tag_len := 10
    rtp_prefix_len := 0
    rtcp_prefix_len := 0
    rtp_services := 3
    rtcp_services := 3
    direction := .unknown
    allow_repeat_tx := false
    limit := 9
    rtp_rdbx := Rdbx.init 128
    rtcp_rdb := Rdb.init
    salt := List.replicate 12 0
    c_salt := List.replicate 12 0 }

/-- Session holding just `stGcmRtp`. -/
def sessGcmRtp : Session := ⟨[stGcmRtp], none, none⟩

/-- A minimal 12-byte RTCP packet with SSRC 5 (bytes 4–7). -/
def pktRtcp12 : List Nat := [129, 200, 0, 1, 0, 0, 0, 5, 0, 0, 0, 1]

/-- Witness for C9: on the mixed-family stream the RTCP protect call is
routed by the RTP cipher's algorithm. -/
theorem rtcp_dispatch_on_rtp_cipher_algorithm_witness :
    srtp_protect_rtcp ext0 sessGcmRtp pktRtcp12 =
      (let st1 := if stGcmRtp.direction = .unknown then
                    { stGcmRtp with direction := .sender } else stGcmRtp
       if srtp_uses_aead stGcmRtp then
         srtp_protect_rtcp_aead ext0 (putStream sessGcmRtp false st1) st1 pktRtcp12
       else srtp_protect_rtcp_ctr ext0 (putStream sessGcmRtp false st1) st1 pktRtcp12) :=
  rtcp_dispatch_on_rtp_cipher_algorithm.2.2.1 ext0 sessGcmRtp sessGcmRtp pktRtcp12 stGcmRtp
    (by decide) (by decide)

/-- C10 counterexample: `srtp_create` on a null policy list yields the
empty session, but `srtp_protect` on that session does **not** return
`no_ctx` for *any* packet — a zero-length packet fails RTP header
validation first and returns `bad_param`. -/
theorem create_null_policy_short_packet_bad_param :
    srtp_create [] = (.ok, some ⟨[], none, none⟩)
    ∧ (srtp_protect ext0 ⟨[], none, none⟩ []).status = .bad_param
    ∧ (srtp_protect ext0 ⟨[], none, none⟩ []).status ≠ .no_ctx := by
  refine ⟨rfl, rfl, by decide⟩

/-- C10 (amended): a null policy list gives `ok` and a session with empty
stream list, no template and null user data; on that session
`srtp_protect`/`srtp_unprotect` return `no_ctx` for every packet that
passes RTP header validation, and `bad_param` for every packet that does
not. -/
theorem create_null_policy_empty_session :
    srtp_create [] = (.ok, some { streams := [], templ := none, user_data := none })
    ∧ (∀ (ext : Ext) (pkt : List Nat),
        srtp_validate_rtp_header pkt = .ok →
        (srtp_protect ext ⟨[], none, none⟩ pkt).status = .no_ctx
        ∧ (srtp_unprotect ext ⟨[], none, none⟩ pkt).status = .no_ctx)
    ∧ (∀ (ext : Ext) (pkt : List Nat),
        srtp_validate_rtp_header pkt ≠ .ok →
        (srtp_protect ext ⟨[], none, none⟩ pkt).status = .bad_param
        ∧ (srtp_unprotect ext ⟨[], none, none⟩ pkt).status = .bad_param) := by
  refine ⟨rfl, ?_, ?_⟩
  · intro ext pkt hv
    have hlen := validate_ok_len pkt hv
    constructor
    · simp [srtp_protect, hv, hlen, srtp_protect_resolve, srtp_get_stream]
    · simp [srtp_unprotect, srtp_unprotect_resolve, hv, hlen, srtp_get_stream]
  · intro ext pkt hv
    rcases validate_ok_or_bad pkt with h | h
    · exact absurd h hv
    · constructor
      · simp [srtp_protect, h]
      · simp [srtp_unprotect, srtp_unprotect_resolve, h]

/-- Witness for C10 (amended) at a well-formed 12-byte packet. -/
theorem create_null_policy_empty_session_witness :
    (srtp_protect ext0 ⟨[], none, none⟩ (List.replicate 12 0)).status = .no_ctx
    ∧ (srtp_unprotect ext0 ⟨[], none, none⟩ (List.replicate 12 0)).status = .no_ctx :=
  create_null_policy_empty_session.2.1 ext0 (List.replicate 12 0) (by decide)

/-- A GCM stream with confidentiality configured for RTCP (SSRC 5, 4-byte
RTCP tag, known direction left unknown). -/
def stC3gcm : Stream :=
  { ssrc := 5
    rtp_cipher_id := .aes_128_gcm
    rtp_alg := .aes_128_gcm
    rtcp_cipher_id := .aes_128_gcm
    rtcp_alg := .aes_128_gcm
    rtp_tag_len := 16
    rtcp_tag_len := 4
    rtp_prefix_len := 0
    rtcp_prefix_len := 0
    rtp_services := 3
    rtcp_services := 3
    direction := .unknown
    allow_repeat_tx := false
    limit := 100
    rtp_rdbx := Rdbx.init 128
    rtcp_rdb := Rdb.init
    salt := List.replicate 12 0
    c_salt := List.replicate 12 0 }

/-- The CTR+HMAC sibling of `stC3gcm`. -/
def stC3ctr : Stream :=
  { stC3gcm with
    rtp_cipher_id := .aes_icm
    rtp_alg := .aes_icm
    rtcp_cipher_id := .aes_icm
    rtcp_alg := .aes_icm }

/-- 16-byte SRTCP packet, SSRC 5, whose trailer word (last 4 bytes) has
the E bit clear — mismatching the stream's configured confidentiality. -/
def pktC3 : List Nat := [129, 200, 0, 1, 0, 0, 0, 5, 9, 9, 9, 9, 0, 0, 0, 1]

/-- C3 counterexample: on the AEAD/GCM path `srtp_unprotect_rtcp` performs
no E-bit/service comparison.  With confidentiality configured and the
packet's E bit clear, the call does not return `cant_check` (with
everything-succeeds primitives it even returns `ok`). -/
theorem rtcp_ebit_mismatch_aead_counterexample :
    (Nat.land (getByte pktC3 (pktC3.length - 4)) 0x80 == 0x80) = false
    ∧ (stC3gcm.rtcp_services == sec_serv_conf
        || stC3gcm.rtcp_services == sec_serv_conf_and_auth) = true
    ∧ srtp_uses_aead stC3gcm = true
    ∧ (srtp_unprotect_rtcp ext0 ⟨[stC3gcm], none, none⟩ pktC3).status ≠ .cant_check
    ∧ (srtp_unprotect_rtcp ext0 ⟨[stC3gcm], none, none⟩ pktC3).status = .ok := by
  exact ⟨by decide, by decide, rfl, by decide, by decide⟩

/-- C3 (amended): on the CTR+HMAC path an E-bit/confidentiality mismatch
returns `cant_check`; the AEAD/GCM path performs no such comparison and
never returns `cant_check` (under the actual result sets of the replay
check and of GCM decryption, which never produce `cant_check`). -/
theorem rtcp_ebit_mismatch_amended :
    ∀ (ext : Ext) (sess : Session) (pkt : List Nat) (st : Stream) (ft : Bool),
      (if ft then srtp_get_stream sess (rtcp_ssrc pkt) = none ∧ sess.templ = some st
       else srtp_get_stream sess (rtcp_ssrc pkt) = some st) →
      ¬ pkt.length < 8 + st.rtcp_tag_len + 4 →
      ((srtp_uses_aead st = false →
          (Nat.land (getByte pkt (pkt.length - (st.rtcp_tag_len + 4))) 0x80 == 0x80) ≠
            (st.rtcp_services == sec_serv_conf
              || st.rtcp_services == sec_serv_conf_and_auth) →
          (srtp_unprotect_rtcp ext sess pkt).status = .cant_check)
       ∧ (srtp_uses_aead st = true →
          (∀ (r : Rdb) (i : Nat), ext.rdb_check r i ≠ .cant_check) →
          (∀ l, (ext.rtcp_decrypt l).1 ≠ .cant_check) →
          (srtp_unprotect_rtcp ext sess pkt).status ≠ .cant_check)) := by
  intro ext sess pkt st ft hres hlen
  rw [unprotect_rtcp_eq_body ext sess pkt st ft hres (by omega)]
  constructor
  · intro hgcm hmis
    simp only [srtp_unprotect_rtcp_body]
    rw [if_neg hlen, if_neg (by simp [hgcm])]
    simp only [srtp_unprotect_rtcp_ctr]
    rw [if_pos hmis]
  · intro hgcm hrdb hdec
    simp only [srtp_unprotect_rtcp_body]
    rw [if_neg hlen, if_pos (by simp [hgcm])]
    simp only [srtp_unprotect_rtcp_aead]
    repeat' split
    all_goals simp_all

/-- Witness for C3 (amended): the CTR+HMAC stream with the same
mismatching packet returns `cant_check`. -/
theorem rtcp_ebit_mismatch_amended_witness :
    (srtp_unprotect_rtcp ext0 ⟨[stC3ctr], none, none⟩ pktC3).status = .cant_check :=
  (rtcp_ebit_mismatch_amended ext0 ⟨[stC3ctr], none, none⟩ pktC3 stC3ctr false
      (by decide) (by decide)).1 rfl (by decide)

lemma body_tag_frames (auth : List Nat → SrtpStatus × List Nat) (body : List Nat)
    (n t : Nat) (hbl : body.length = n + 4) :
    (body ++ fit t (auth body).2).length = n + t + 4
    ∧ (body ++ fit t (auth body).2).drop (n + 4) =
        fit t (auth ((body ++ fit t (auth body).2).take (n + 4))).2 := by
  have htake : (body ++ fit t (auth body).2).take (n + 4) = body := by
    rw [← hbl]; exact List.take_left _ _
  refine ⟨?_, ?_⟩
  · rw [List.length_append, hbl, fit_length]; omega
  · rw [htake, ← hbl]; exact List.drop_left _ _

/-- Framing of a successful `srtp_protect_rtcp_ctr` call: the output is
`MAC input ++ tag`, where the MAC input is the first `pkt_len + 4` bytes
(header through trailer) and the tag has `tag_len` bytes. -/
lemma protect_rtcp_ctr_frames (ext : Ext) (sess : Session) (st : Stream) (pkt : List Nat)
    (hlen : ¬ pkt.length < 8)
    (hok : (srtp_protect_rtcp_ctr ext sess st pkt).status = .ok) :
    (srtp_protect_rtcp_ctr ext sess st pkt).pkt.length = pkt.length + st.rtcp_tag_len + 4
    ∧ (srtp_protect_rtcp_ctr ext sess st pkt).pkt.drop (pkt.length + 4) =
        fit st.rtcp_tag_len
          (ext.rtcp_auth_compute
            ((srtp_protect_rtcp_ctr ext sess st pkt).pkt.take (pkt.length + 4))).2 := by
  set r := srtp_protect_rtcp_ctr ext sess st pkt with hr
  have hBody : r = srtp_protect_rtcp_ctr ext sess st pkt := hr
  simp only [srtp_protect_rtcp_ctr] at hBody
  repeat' split at hBody
  all_goals rw [hBody] at hok ⊢
  all_goals dsimp only at hok ⊢
  all_goals first
  | (exfalso; revert hok; simp; done)
  | (rename_i hcond; exact absurd hok hcond)
  | (refine body_tag_frames _ _ pkt.length st.rtcp_tag_len ?_
     simp [fit_length, beBytes32, byteOf]
     try omega)

/-- C6: Every successful `srtp_protect_rtcp` call on the CTR+HMAC path
authenticates the packet — regardless of whether the RTCP service mask
requests authentication (the session/stream, hence the mask, is
universally quantified): the MAC is computed over header, (possibly
encrypted) payload and the 4-byte trailer (`pkt_len + 4` bytes), the tag
is written at offset `pkt_len + 4`, and the packet grows by exactly
`tag_len + 4`. -/
theorem protect_rtcp_ctr_always_authenticates :
    ∀ (ext : Ext) (sess sessA : Session) (pkt : List Nat) (st : Stream),
      srtp_protect_rtcp_resolve sess (rtcp_ssrc pkt) = some (st, sessA) →
      srtp_uses_aead st = false →
      (srtp_protect_rtcp ext sess pkt).status = .ok →
      ((srtp_protect_rtcp ext sess pkt).pkt.length = pkt.length + st.rtcp_tag_len + 4
       ∧ (srtp_protect_rtcp ext sess pkt).pkt.drop (pkt.length + 4) =
           fit st.rtcp_tag_len
             (ext.rtcp_auth_compute
               ((srtp_protect_rtcp ext sess pkt).pkt.take (pkt.length + 4))).2) := by
  intro ext sess sessA pkt st hres hgcm hok
  by_cases hlen : pkt.length < 8
  · exfalso
    simp only [srtp_protect_rtcp] at hok
    rw [if_pos hlen] at hok
    exact absurd hok (by simp)
  · have hpin : srtp_uses_aead
        (if st.direction = .unknown then { st with direction := .sender } else st) = false := by
      by_cases hd : st.direction = .unknown <;> simp [hd, srtp_uses_aead] <;>
        simpa [srtp_uses_aead] using hgcm
    have htag : (if st.direction = .unknown then
        { st with direction := .sender } else st).rtcp_tag_len = st.rtcp_tag_len := by
      by_cases hd : st.direction = .unknown <;> simp [hd]
    have hmain : srtp_protect_rtcp ext sess pkt =
        srtp_protect_rtcp_ctr ext
          (putStream sessA false
            (if st.direction = .unknown then { st with direction := .sender } else st))
          (if st.direction = .unknown then { st with direction := .sender } else st) pkt := by
      simp only [srtp_protect_rtcp]
      rw [if_neg hlen, hres]
      simp only [hpin, Bool.false_eq_true, if_false]
    rw [hmain] at hok ⊢
    have hframes := protect_rtcp_ctr_frames ext _ _ pkt hlen hok
    rwa [htag] at hframes

/-- A CTR stream whose RTCP service mask requests only confidentiality,
not authentication. -/
def stC6conf : Stream := { stC3ctr with rtcp_services := sec_serv_conf }

/-- Witness for C6: a concrete successful CTR+HMAC RTCP protect call on a
12-byte packet grows it by `tag_len + 4` and appends the MAC of its first
`pkt_len + 4` bytes — here on a stream whose service mask does *not*
request authentication. -/
theorem protect_rtcp_ctr_always_authenticates_witness :
    (srtp_protect_rtcp ext0 ⟨[stC6conf], none, none⟩ pktRtcp12).pkt.length =
        pktRtcp12.length + stC6conf.rtcp_tag_len + 4
    ∧ (srtp_protect_rtcp ext0 ⟨[stC6conf], none, none⟩ pktRtcp12).pkt.drop
        (pktRtcp12.length + 4) =
      fit stC6conf.rtcp_tag_len
        (ext0.rtcp_auth_compute
          ((srtp_protect_rtcp ext0 ⟨[stC6conf], none, none⟩ pktRtcp12).pkt.take
            (pktRtcp12.length + 4))).2 :=
  protect_rtcp_ctr_always_authenticates ext0 ⟨[stC6conf], none, none⟩
    ⟨[stC6conf], none, none⟩ pktRtcp12 stC6conf (by decide) rfl (by decide)

/-! ## C1: no observable state change before authentication succeeds -/

/-- The receive-path error statuses claim C1 enumerates. -/
def isRecvAuthErr : SrtpStatus → Bool
  | .bad_param | .no_ctx | .replay_fail | .replay_old | .cant_check | .auth_fail => true
  | _ => false

/-- How the receive paths resolved their stream: provisionally through the
template, or as a concrete entry of `stream_list` found by SSRC. -/
def resolvedRecv (sess : Session) (key : Nat) (st : Stream) (ft : Bool) : Prop :=
  if ft then sess.templ = some st
  else srtp_get_stream sess key = some st

lemma replaceStream_map_obs (l : List Stream) (key : Nat) (st st' : Stream)
    (hf : l.find? (fun s => s.ssrc == key) = some st)
    (hs : st'.ssrc = st.ssrc) (ho : streamObs st' = streamObs st) :
    (replaceStream l st').map streamObs = l.map streamObs := by
  induction l with
  | nil => simp [List.find?] at hf
  | cons a rest ih =>
    by_cases ha : (a.ssrc == key) = true
    · simp only [List.find?, ha] at hf
      injection hf with hfa
      subst hfa
      simp [replaceStream, hs, ho]
    · have ha' : (a.ssrc == key) = false := by simpa using ha
      simp only [List.find?, ha'] at hf
      have hkey : st.ssrc = key := by simpa using List.find?_some hf
      have hcond : (a.ssrc == st'.ssrc) = false := by
        rw [hs, hkey]
        simpa using ha
      simp [replaceStream, hcond, ih hf]

lemma putStream_obs (sess : Session) (key : Nat) (st st' : Stream) (ft : Bool)
    (hres : resolvedRecv sess key st ft)
    (hs : st'.ssrc = st.ssrc) (ho : streamObs st' = streamObs st) :
    sessObs (putStream sess ft st') = sessObs sess := by
  cases ft with
  | true =>
    simp only [resolvedRecv, if_true] at hres
    simp [putStream, sessObs, hres, ho]
  | false =>
    simp only [resolvedRecv] at hres
    rw [if_neg (by simp)] at hres
    simp only [srtp_get_stream] at hres
    simp only [putStream, sessObs]
    rw [if_neg (by simp)]
    simp only []
    rw [replaceStream_map_obs sess.streams key st st' hres hs ho]

/-- The CTR+HMAC RTCP unprotect tail never touches the session unless it
returns `ok`. -/
lemma unprotect_rtcp_ctr_sess (ext : Ext) (sess : Session) (pkt : List Nat)
    (st : Stream) (ft : Bool) :
    (srtp_unprotect_rtcp_ctr ext sess pkt st ft).status = .ok ∨
      (srtp_unprotect_rtcp_ctr ext sess pkt st ft).sess = sess := by
  simp only [srtp_unprotect_rtcp_ctr]
  repeat' split
  all_goals simp

/-- The AEAD RTCP unprotect never touches the session unless it returns
`ok`. -/
lemma unprotect_rtcp_aead_sess (ext : Ext) (sess : Session) (pkt : List Nat)
    (st : Stream) (ft : Bool) :
    (srtp_unprotect_rtcp_aead ext sess pkt st ft).status = .ok ∨
      (srtp_unprotect_rtcp_aead ext sess pkt st ft).sess = sess := by
  simp only [srtp_unprotect_rtcp_aead]
  repeat' split
  all_goals simp

/-- `srtp_unprotect_rtcp` never touches the session unless it returns
`ok`. -/
lemma unprotect_rtcp_sess (ext : Ext) (sess : Session) (pkt : List Nat) :
    (srtp_unprotect_rtcp ext sess pkt).status = .ok ∨
      (srtp_unprotect_rtcp ext sess pkt).sess = sess := by
  simp only [srtp_unprotect_rtcp, srtp_unprotect_rtcp_body]
  repeat' split
  all_goals first
  | simp
  | exact unprotect_rtcp_ctr_sess _ _ _ _ _
  | exact unprotect_rtcp_aead_sess _ _ _ _ _

/-- The CTR+HMAC RTP unprotect tail: unless it returns `ok`, the replay
databases, directions and stream list are unchanged (only the key-usage
counter may have moved). -/
lemma unprotect_ctr_obs (ext : Ext) (sess : Session) (pkt : List Nat)
    (st : Stream) (ft : Bool) (delta : Int) (est : Nat)
    (hres : resolvedRecv sess (rtp_ssrc pkt) st ft) :
    (srtp_unprotect_ctr ext sess pkt st ft delta est).status = .ok ∨
      sessObs (srtp_unprotect_ctr ext sess pkt st ft delta est).sess = sessObs sess := by
  simp only [srtp_unprotect_ctr]
  repeat' split
  all_goals first
  | (simp; done)
  | (right
     exact putStream_obs sess (rtp_ssrc pkt) st
       { st with limit := (ext.key_limit_update st.limit).2 } ft hres rfl rfl)

/-- The AEAD RTP unprotect: unless it returns `ok`, the replay databases,
directions and stream list are unchanged. -/
lemma unprotect_aead_obs (ext : Ext) (sess : Session) (pkt : List Nat)
    (st : Stream) (ft : Bool) (delta : Int) (est : Nat)
    (hres : resolvedRecv sess (rtp_ssrc pkt) st ft) :
    (srtp_unprotect_aead ext sess pkt st ft delta est).status = .ok ∨
      sessObs (srtp_unprotect_aead ext sess pkt st ft delta est).sess = sessObs sess := by
  simp only [srtp_unprotect_aead]
  repeat' split
  all_goals first
  | (simp; done)
  | (right
     exact putStream_obs sess (rtp_ssrc pkt) st
       { st with limit := (ext.key_limit_update st.limit).2 } ft hres rfl rfl)

lemma unprotect_resolve_sound (ext : Ext) (sess : Session) (pkt : List Nat)
    (st : Stream) (ft : Bool) (delta : Int) (est : Nat)
    (h : srtp_unprotect_resolve ext sess pkt = .ok (st, ft, delta, est)) :
    resolvedRecv sess (rtp_ssrc pkt) st ft := by
  simp only [srtp_unprotect_resolve] at h
  repeat' split at h
  all_goals simp_all [resolvedRecv, srtp_get_stream]

/-- `srtp_unprotect`: unless it returns `ok`, the replay databases,
directions and stream list are unchanged. -/
lemma unprotect_obs (ext : Ext) (sess : Session) (pkt : List Nat) :
    (srtp_unprotect ext sess pkt).status = .ok ∨
      sessObs (srtp_unprotect ext sess pkt).sess = sessObs sess := by
  simp only [srtp_unprotect]
  split
  · simp
  · rename_i st ft delta est heq
    have hres := unprotect_resolve_sound ext sess pkt st ft delta est heq
    split
    · exact unprotect_aead_obs ext sess pkt st ft delta est hres
    · exact unprotect_ctr_obs ext sess pkt st ft delta est hres

/-- C1: Whenever `srtp_unprotect` or `srtp_unprotect_rtcp` returns one of
the errors raised at or before the authentication check (`bad_param`,
`no_ctx`, `replay_fail`, `replay_old`, `cant_check`, `auth_fail`), every
stream's replay databases and direction, the stream list, and the
template are exactly as before the call: the replay-index commit, the
receiver-direction pin and the template clone happen only after the tag
comparison (or the GCM decrypt) has succeeded. -/
theorem unprotect_no_state_change_before_auth :
    ∀ (ext : Ext) (sess : Session) (pkt : List Nat),
      (isRecvAuthErr (srtp_unprotect ext sess pkt).status = true →
        sessObs (srtp_unprotect ext sess pkt).sess = sessObs sess)
      ∧ (isRecvAuthErr (srtp_unprotect_rtcp ext sess pkt).status = true →
        sessObs (srtp_unprotect_rtcp ext sess pkt).sess = sessObs sess) := by
  intro ext sess pkt
  constructor
  · intro herr
    rcases unprotect_obs ext sess pkt with h | h
    · rw [h] at herr
      exact absurd herr (by decide)
    · exact h
  · intro herr
    rcases unprotect_rtcp_sess ext sess pkt with h | h
    · rw [h] at herr
      exact absurd herr (by decide)
    · rw [h]

/-- Witness for C1: an unknown SSRC on a template-less session makes both
unprotect calls fail with `no_ctx` (an error of the claim's set), and the
session observables are untouched. -/
theorem unprotect_no_state_change_before_auth_witness :
    isRecvAuthErr (srtp_unprotect ext0 ⟨[], none, none⟩ (List.replicate 12 0)).status = true
    ∧ sessObs (srtp_unprotect ext0 ⟨[], none, none⟩ (List.replicate 12 0)).sess =
        sessObs ⟨[], none, none⟩
    ∧ sessObs (srtp_unprotect_rtcp ext0 ⟨[], none, none⟩ (List.replicate 12 0)).sess =
        sessObs ⟨[], none, none⟩ :=
  ⟨by decide,
   (unprotect_no_state_change_before_auth ext0 ⟨[], none, none⟩ (List.replicate 12 0)).1
     (by decide),
   (unprotect_no_state_change_before_auth ext0 ⟨[], none, none⟩ (List.replicate 12 0)).2
     (by decide)⟩

end LibSrtp
